import Mathlib

/-!
Verification of the report parsing and normalization pipeline of the
pupil-performance-analysis system.

The embedding models:
* raw spreadsheet cell values (`PyVal`, `Option PyVal` with `none` = empty cell);
* the mark normalizer `Mark.clean` of `analyser/models.py` (`clean`) and the
  older top-level `models.py` variant (`legacyClean`);
* the subject classifier of `analyser/models.py` / `analyser/files.py`;
* the cell-grid adapter of `reading.py` (`getCellXlrd`, `getCellOpenpyxl`);
* the layout locator scans, the semester and periodic report parsers, and the
  batch aggregation functions of `analyser/parsing.py`.

Python strings are modelled through their character lists; machine floats and
ints are modelled by exact fractions `PyNum` (the platform only ever produces
small decimal values, and the code treats `int` and `float` uniformly);
Python numeric equality `==` is the value equality `PyNum.eqv`.
-/

/-- An exact fraction `n / d`, modelling a Python int or float value. -/
structure PyNum where
  n : ℤ
  d : ℕ
deriving DecidableEq

/-- Python numeric equality `==`: equality of the represented values. -/
def PyNum.eqv (a b : PyNum) : Bool := a.n * (b.d : ℤ) == b.n * (a.d : ℤ)

/-- The number zero (Python `0` and `0.0`). -/
def pyZero : PyNum := ⟨0, 1⟩

/-- A whole number. -/
def PyNum.ofInt (k : ℤ) : PyNum := ⟨k, 1⟩

/-- Reduced fraction `n / d`. -/
def mkPyNum (n : ℤ) (d : ℕ) : PyNum :=
  let g := Nat.gcd n.natAbs d
  if g = 0 then ⟨0, 0⟩ else ⟨n.ediv (g : ℤ), d / g⟩

/-- Python `int(x)` on a number: truncation toward zero. -/
def PyNum.trunc (a : PyNum) : ℤ := a.n.tdiv (a.d : ℤ)

/-- A non-empty raw spreadsheet cell value: a number (Python int/float) or a
string.  An empty cell is `none : Option PyVal`. -/
inductive PyVal where
  | num (q : PyNum)
  | str (s : String)
deriving DecidableEq

/-- A normalized ("clean") mark value: boolean pass/fail or a number.
`Option Cleaned` with `none` denotes an absent mark. -/
inductive Cleaned where
  | bool (b : Bool)
  | num (q : PyNum)
deriving DecidableEq

/-- Python `str.endswith`, over character lists. -/
def pyEndsWith (s suffx : String) : Bool := suffx.data.isSuffixOf s.data

/-- Python `str.startswith`, over character lists. -/
def pyStartsWith (s pre : String) : Bool := pre.data.isPrefixOf s.data

/-- Substring occurrence over character lists. -/
def containsL (pat : List Char) : List Char → Bool
  | [] => pat.isEmpty
  | x :: xs => pat.isPrefixOf (x :: xs) || containsL pat xs

/-- Python `sub in s` substring containment, over character lists. -/
def pyContains (s sub : String) : Bool := containsL sub.data s.data

deriving instance DecidableEq for Except

/-- One step list of `str.replace`: replaces every non-overlapping occurrence
of `pat` left to right.  The fuel starts at the length of the list, which is
always enough since each step consumes at least one character. -/
def replaceL (pat repl : List Char) : ℕ → List Char → List Char
  | 0, l => l
  | _ + 1, [] => []
  | fuel + 1, x :: xs =>
    if pat ≠ [] ∧ pat.isPrefixOf (x :: xs) then
      repl ++ replaceL pat repl fuel ((x :: xs).drop pat.length)
    else
      x :: replaceL pat repl fuel xs

/-- Python `s.replace(pat, repl)` (all occurrences). -/
def pyReplace (s pat repl : String) : String :=
  (replaceL pat.data repl.data s.data.length s.data).asString

/-- The decoration stripping the normalizer performs before re-checking
tokens: `raw.replace("IN", "").replace("PR", "")`. -/
def stripProgram (s : String) : String := pyReplace (pyReplace s "IN" "") "PR" ""

/-- Python `str.isdecimal` / `str.isdigit` restricted to ASCII digits, which is
all the platform emits: non-empty and all characters are digits. -/
def pyIsDigits (s : String) : Bool := !s.data.isEmpty && s.data.all Char.isDigit

/-- Removes the first occurrence of a character, as `s.replace(".", "", 1)`. -/
def removeFirstChar (c : Char) : List Char → List Char
  | [] => []
  | x :: xs => if x = c then xs else x :: removeFirstChar c xs

/-- Numeric value of a list of ASCII digits. -/
def natOfDigits (l : List Char) : ℕ := l.foldl (fun a c => 10 * a + (c.toNat - 48)) 0

/-- Value of `float(s)` for the strings the normalizer accepts: all digits, or
digits with a single dot. -/
def decimalVal (s : String) : PyNum :=
  let intPart := s.data.takeWhile (fun c => c ≠ '.')
  let fracPart := (s.data.dropWhile (fun c => c ≠ '.')).drop 1
  mkPyNum (natOfDigits (intPart ++ fracPart) : ℤ) (10 ^ fracPart.length)

/-- The numeric-string fallback of `Mark.clean`: `new_mark.isdecimal()`, else
`new_mark.replace(".", "", 1).isdigit()`, each returning `float(new_mark)`;
`none` when neither branch accepts the string. -/
def pyFloatParse (s : String) : Option PyNum :=
  if pyIsDigits s then some (PyNum.ofInt (natOfDigits s.data : ℤ))
  else if pyIsDigits ((removeFirstChar '.' s.data).asString) then some (decimalVal s)
  else none

/-- String branch of `Mark.clean` from `analyser/models.py` (lines 109-146):
hyphen, pass/fail, exempt and absence tokens, hour suffixes, then program
suffix stripping followed by token and numeric-string checks; every remaining
string raises `ValueError`, modelled by `Except.error` carrying the raw. -/
def cleanStr (s : String) : Except String (Option Cleaned) :=
  if s = "-" then .ok none
  else if s = "įsk" then .ok (some (.bool true))
  else if s = "nsk" then .ok (some (.bool false))
  else if s = "atl" then .ok none
  else if s = "n" then .ok none
  else if s = "nk" then .ok none
  else if s = "nl" then .ok none
  else if pyEndsWith s "val." || pyEndsWith s "val" then .ok none
  else
    let n := stripProgram s
    if n = "įsk" then .ok (some (.bool true))
    else if n = "nsk" then .ok (some (.bool false))
    else if n = "atl" then .ok none
    else if n = "0" then .ok none
    else if n = "0.0" then .ok none
    else
      match pyFloatParse n with
      | some q => .ok (some (.num q))
      | none => .error s

/-- `Mark.clean` from `analyser/models.py` (lines 100-146).  `none` input is a
blank cell; a numeric raw equal to `0` is canonicalized to absent. -/
def clean (raw : Option PyVal) : Except String (Option Cleaned) :=
  match raw with
  | none => .ok none
  | some (.num q) => if q.eqv pyZero then .ok none else .ok (some (.num q))
  | some (.str s) => cleanStr s

/-- String branch of the older `Mark.clean` from top-level `models.py`
(lines 95-113): only hyphen, plain pass/fail and exempt tokens, then suffix
stripping followed by the `"0"` check and numeric-string parsing. -/
def legacyCleanStr (s : String) : Except String (Option Cleaned) :=
  if s = "-" then .ok none
  else if s = "įsk" then .ok (some (.bool true))
  else if s = "nsk" then .ok (some (.bool false))
  else if s = "atl" then .ok none
  else
    let n := stripProgram s
    if n = "0" then .ok none
    else
      match pyFloatParse n with
      | some q => .ok (some (.num q))
      | none => .error s

/-- The older `Mark.clean` from top-level `models.py` (lines 87-113): numeric
raw values are returned unchanged, with no zero check. -/
def legacyClean (raw : Option PyVal) : Except String (Option Cleaned) :=
  match raw with
  | none => .ok none
  | some (.num q) => .ok (some (.num q))
  | some (.str s) => legacyCleanStr s

/-- One configured ignore-list entry: a match-kind bitmask and a word, as
produced by `get_ignored_item_filters` in `analyser/files.py`. -/
abbrev ItemFilter := ℕ × String

/-- Parsing of one non-empty configuration line (`analyser/files.py`,
lines 70-78): the bitmask starts at `1`, a trailing `*` is stripped and sets
bit 1, then a leading `*` is stripped and sets bit 2. -/
def parseFilterLine (s : String) : ItemFilter :=
  let (v1, s1) := if pyEndsWith s "*" then (2, (s.data.take (s.data.length - 1)).asString) else (0, s)
  let (v2, s2) := if pyStartsWith s1 "*" then (4, (s1.data.drop 1).asString) else (0, s1)
  (1 ||| v1 ||| v2, s2)

/-- Python `str.rstrip`: drops trailing whitespace. -/
def pyRstrip (s : String) : String :=
  ((s.data.reverse.dropWhile Char.isWhitespace).reverse).asString

/-- `get_ignored_item_filters` of `analyser/files.py` (lines 57-79), over the
list of lines of the configuration file: each line is right-stripped, empty
lines are skipped, every other line becomes one filter entry. -/
def getIgnoredItemFilters (lines : List String) : List ItemFilter :=
  ((lines.map pyRstrip).filter (fun l => l ≠ "")).map parseFilterLine

/-- One step of `UnifiedSubject.is_name_ignored` (`analyser/models.py`,
lines 159-178): kind `1` is exact match, `3` is prefix, `5` is suffix, and
every other kind is substring containment. -/
def matchesFilter (name : String) (f : ItemFilter) : Bool :=
  if f.1 = 1 then name == f.2
  else if f.1 = 3 then pyStartsWith name f.2
  else if f.1 = 5 then pyEndsWith name f.2
  else pyContains name f.2

/-- `UnifiedSubject.is_module`: the name contains the module marker token. -/
def isModuleName (name : String) : Bool := pyContains name "modulis"

/-- `UnifiedSubject.is_name_ignored` of `analyser/models.py`: some configured
filter entry matches under its match kind. -/
def isNameIgnored (filters : List ItemFilter) (name : String) : Bool :=
  filters.any (matchesFilter name)

/-- `UnifiedSubject.is_ignored` of `analyser/models.py` (lines 180-185):
module, or matched by the configured ignore-list. -/
def isIgnored (filters : List ItemFilter) (name : String) : Bool :=
  isModuleName name || isNameIgnored filters name

/-- `UnifiedSubject.is_ignored` of the older top-level `models.py`
(lines 134-166): a fixed built-in list of non-graded subject names, or a
module; this variant consults no configurable ignore-list. -/
def legacyIsIgnored (name : String) : Bool :=
  name == "Neformalusis ugdymas"
  || name == "Neformalus ugdymas"
  || pyStartsWith name "Dorinis ugdymas"
  || isModuleName name
  || pyStartsWith name "Namų ugdymas"
  || pyStartsWith name "Namų mokymas"
  || name == "Integruotas technologijų kursas"
  || name == "Lietuvių kalbos rašyba, skyryba ir vartojimas (konsultacijos)"
  || name == "Žmogaus sauga"
  || name == "Karjeros ugdymas"
  || name == "Socialinė-pilietinė veikla"
  || name == "Socialinė veikla"

/-- Python truthiness of a cell value: `0`, `0.0` and `""` are falsy. -/
def pyTruthy : PyVal → Bool
  | .num q => !q.eqv pyZero
  | .str s => s ≠ ""

/-- `UnifiedSheet.get_cell` of `reading.py` (lines 20-26), legacy binary
(xlrd) path: reads the stored value at the flipped, 0-based coordinates and
collapses every falsy value to `None` via `... or None`. -/
def getCellXlrd (stored : ℕ → ℕ → PyVal) (column row : ℕ) : Option PyVal :=
  let v := stored (row - 1) (column - 1)
  if pyTruthy v then some v else none

/-- `UnifiedSheet.get_cell` of `reading.py`, Open-Packaging (openpyxl) path:
returns the stored value unchanged (the library itself is 1-based with
row-major arguments). -/
def getCellOpenpyxl (stored : ℕ → ℕ → Option PyVal) (column row : ℕ) : Option PyVal :=
  stored row column

/-- The Python exceptions the parsing pipeline can raise: the two declared
`ParsingError` subclasses of `errors.py`, plus the built-in exceptions the
parser code can produce (`TypeError`/`AttributeError` on a non-string cell,
`IndexError` on a short split, `AssertionError` on a non-string subject name,
`ValueError` from `int()`). -/
inductive ParseErr where
  | invalidResourceType
  | inconclusiveResource
  | typeError
  | indexError
  | assertionError
  | valueError (raw : String)
deriving DecidableEq

/-- Outcome of a fragment of parser code: `diverge` when a scan loop never
breaks, `fail` when a Python exception is raised, `done` on success. -/
inductive PRes (α : Type) where
  | diverge
  | fail (e : ParseErr)
  | done (a : α)
deriving DecidableEq

instance : Monad PRes where
  pure := PRes.done
  bind := fun x f =>
    match x with
    | .diverge => .diverge
    | .fail e => .fail e
    | .done a => f a

/-- A spreadsheet viewed through `BaseParser.cell`: `cell column row`,
1-based; reads outside the populated region give `none`. -/
def Grid : Type := ℕ → ℕ → Option PyVal

/-- Python slice `s[k:]`. -/
def pyDrop (s : String) (k : ℕ) : String := (s.data.drop k).asString

/-- Python slice `s[:k]` for `k ≥ 0`. -/
def pyTake (s : String) (k : ℕ) : String := (s.data.take k).asString

/-- Python slice `s[:-k]` for `k > 0`. -/
def pyDropRight (s : String) (k : ℕ) : String := (s.data.take (s.data.length - k)).asString

/-- Python `str.strip`: drops surrounding whitespace. -/
def pyStrip (s : String) : String :=
  (((s.data.dropWhile Char.isWhitespace).reverse.dropWhile Char.isWhitespace).reverse).asString

/-- Python `s.split(sep)` for a one-character separator. -/
def pySplitChar (s : String) (sep : Char) : List String :=
  (s.data.foldr
    (fun c acc =>
      if c = sep then [] :: acc
      else
        match acc with
        | [] => [[c]]
        | g :: gs => (c :: g) :: gs)
    [[]]).map List.asString

/-- Fuelled worker for `pySplitOnStr`; the fuel starts at the length of the
list, which is always enough since each step consumes at least one
character. -/
def splitOnL (sep : List Char) : ℕ → List Char → List Char → List (List Char)
  | 0, l, cur => [cur.reverse ++ l]
  | _ + 1, [], cur => [cur.reverse]
  | fuel + 1, c :: cs, cur =>
    if sep ≠ [] ∧ sep.isPrefixOf (c :: cs) then
      cur.reverse :: splitOnL sep fuel ((c :: cs).drop sep.length) []
    else
      splitOnL sep fuel cs (c :: cur)

/-- Python `s.split(sep)` for a non-empty separator string. -/
def pySplitOnStr (s sep : String) : List String :=
  (splitOnL sep.data s.data.length s.data []).map List.asString

/-- Python `int(s)` on a string: surrounding whitespace allowed, digits
required (the platform never produces signed values here). -/
def pyIntOfStr (s : String) : PRes ℕ :=
  let t := pyStrip s
  if pyIsDigits t then .done (natOfDigits t.data) else .fail (.valueError s)

/-- The attendance `convert_value` helper of `BaseParser.get_pupil_attendance`
(`analyser/parsing.py`, lines 69-73): `None` becomes `0`, any other value goes
through `int(raw)`. -/
def convertValue : Option PyVal → PRes ℤ
  | none => .done 0
  | some (.num q) => .done q.trunc
  | some (.str s) =>
    let t := pyStrip s
    if pyIsDigits t then .done (natOfDigits t.data : ℤ) else .fail (.valueError s)

/-- Accessing a string method on a cell value: fails (Python `AttributeError`
or `TypeError`) unless the cell holds a string. -/
def asStrCell : Option PyVal → PRes String
  | some (.str s) => .done s
  | _ => .fail .typeError

/-- The `assert isinstance(name, str)` of `get_pupil_subjects`. -/
def assertStrCell : Option PyVal → PRes String
  | some (.str s) => .done s
  | _ => .fail .assertionError

/-- A calendar date as produced by `datetime.datetime`. -/
structure PyDate where
  y : ℕ
  m : ℕ
  d : ℕ
deriving DecidableEq

/-- `datetime.datetime.strptime(s, "%Y-%m-%d")`: three dash-separated digit
groups with a valid month and day; anything else raises `ValueError`. -/
def parseDate (s : String) : PRes PyDate :=
  match pySplitChar s '-' with
  | [ys, ms, ds] =>
    if pyIsDigits ys && pyIsDigits ms && pyIsDigits ds then
      let m := natOfDigits ms.data
      let d := natOfDigits ds.data
      if 1 ≤ m ∧ m ≤ 12 ∧ 1 ≤ d ∧ d ≤ 31 then .done ⟨natOfDigits ys.data, m, d⟩
      else .fail (.valueError s)
    else .fail (.valueError s)
  | _ => .fail (.valueError s)

/-- The `Mark` model object of `analyser/models.py`: it stores the raw cell
value unchanged; normalization happens only when `clean` is accessed.  The
observation date carried by group-layout marks is irrelevant to the claims
and omitted. -/
structure Mark where
  raw : Option PyVal
deriving DecidableEq

/-- A `UnifiedSubject`: name and raw mark. -/
structure USubject where
  name : String
  mark : Mark
deriving DecidableEq

/-- The `Attendance` model: four integer counts. -/
structure Attendance where
  totalMissed : ℤ
  justifiedByIllness : ℤ
  justifiedByOther : ℤ
  notJustified : ℤ
deriving DecidableEq

/-- Modelled from the spec: the `UnifiedPupil` class referenced by
`analyser/parsing.py` and the test-suite is absent from the sources; per the
spec a Pupil is a full name, an ordered subject list, one aggregate `Mark`
(the period average) and one `Attendance`.  The name slot holds the raw cell
value (the code stores `self.cell(2, row)` unchecked), and the average slot is
an `Option Mark` to model the dynamically typed attribute that the aggregator
compares against `None` — the parser always stores an actual `Mark` object in
it. -/
structure UnifiedPupil where
  name : Option PyVal
  subjects : List USubject
  average : Option Mark
  attendance : Attendance
deriving DecidableEq

/-- A parsed report summary (`ClassSemesterReportSummary` /
`ClassPeriodReportSummary` of `analyser/summaries.py`).  `stype` is the
semester subtype (`None` for the periodic layout); `students` is the ordered
pupil list (the attribute name used by the aggregation functions). -/
structure ClassSummary where
  grade_name : String
  stype : Option String
  term_start : PyDate
  term_end : PyDate
  students : List UnifiedPupil
deriving DecidableEq

/-- The `ClassReportSummary` constructor logic: a purely numeric grade name
gets the " klasė" suffix appended. -/
def mkClassSummary (grade : String) (stype : Option String) (ts te : PyDate)
    (students : List UnifiedPupil) : ClassSummary :=
  { grade_name := if pyIsDigits grade then grade ++ " klasė" else grade
    stype := stype
    term_start := ts
    term_end := te
    students := students }

/-- The shared shape of the locator `while True` loops: linear search from
`start` for a position satisfying the probe.  The loops in the source carry no
bound; the explicit fuel makes the model total, and `none` for every fuel
means the Python loop never terminates. -/
def findFrom (p : ℕ → Bool) : ℕ → ℕ → Option ℕ
  | 0, _ => none
  | fuel + 1, start => if p start then some start else findFrom p fuel (start + 1)

/-- A scan that never succeeds, whatever the iteration budget: the Python
`while True` loop it models runs forever. -/
def scanDiverges (p : ℕ → Bool) (start : ℕ) : Prop :=
  ∀ fuel, findFrom p fuel start = none

/-- Probe of `PupilSemesterReportParser._find_average_column`: the cell at
`(off_col + 2, 3)` is non-empty. -/
def semAvgProbe (g : Grid) (c : ℕ) : Bool := (g (c + 2) 3).isSome

/-- `PupilSemesterReportParser._find_average_column` (lines 120-130): scan
from column offset 2, return the offset after the hit. -/
def findAvgColSem (g : Grid) (fuel : ℕ) : Option ℕ :=
  (findFrom (semAvgProbe g) fuel 2).map (· + 1)

/-- Whether a cell holds a string (`isinstance(value, str)`). -/
def isStrCell : Option PyVal → Bool
  | some (.str _) => true
  | _ => false

/-- Probe of `BaseParser._find_last_pupil_row`: the cell at `(1, off_row + 1)`
is a string. -/
def lastRowProbe (g : Grid) (r : ℕ) : Bool := isStrCell (g 1 (r + 1))

/-- `BaseParser._find_last_pupil_row` (lines 49-60): scan from row offset 13
until the probe column holds a string, return the offset of the hit. -/
def findLastPupilRow (g : Grid) (fuel : ℕ) : Option ℕ :=
  findFrom (lastRowProbe g) fuel 13

/-- Probe of `PupilPeriodicReportParser._find_average_column`: the cell at
`(off_col + 1, 2)` is non-empty. -/
def perAvgProbe (g : Grid) (c : ℕ) : Bool := (g (c + 1) 2).isSome

/-- `PupilPeriodicReportParser._find_average_column` (lines 211-221): scan
from column offset 4, return the offset after the hit. -/
def findAvgColPer (g : Grid) (fuel : ℕ) : Option ℕ :=
  (findFrom (perAvgProbe g) fuel 4).map (· + 1)

/-- Probe of `PupilSemesterReportParser._find_attendance_column`: the cell at
`(offset + 1, 3)` is a string. -/
def attProbeSem (g : Grid) (c : ℕ) : Bool := isStrCell (g (c + 1) 3)

/-- `PupilSemesterReportParser._find_attendance_column` (lines 132-144): from
the average column, continue until a second string marker is probed; the
result is the column of that second marker. -/
def findAttColSem (g : Grid) (fuel avg : ℕ) : Option ℕ :=
  match findFrom (attProbeSem g) fuel avg with
  | none => none
  | some o1 => (findFrom (attProbeSem g) fuel (o1 + 1)).map (· + 1)

/-- `PupilPeriodicReportParser._find_attendance_column` (line 223-224): a
fixed offset from the average column, no scan. -/
def findAttColPer (avg : ℕ) : ℕ := avg + 1

/-- Python `value == 0` on a cell value: true exactly for a numeric zero
(`None == 0` and `"0" == 0` are false). -/
def pyEqZeroCell : Option PyVal → Bool
  | some (.num q) => q.eqv pyZero
  | _ => false

/-- `BaseParser.get_pupil_average` (lines 82-87): a raw cell equal to `0`
becomes `Mark(None)`, everything else is wrapped unchanged. -/
def getPupilAverage (g : Grid) (avg row : ℕ) : Mark :=
  if pyEqZeroCell (g avg row) then ⟨none⟩ else ⟨g avg row⟩

/-- `BaseParser.get_pupil_attendance` (lines 66-80): four consecutive cells
from the attendance column, each coerced by `convert_value`. -/
def getAttendance (g : Grid) (attCol row : ℕ) : PRes Attendance := do
  let a ← convertValue (g attCol row)
  let b ← convertValue (g (attCol + 1) row)
  let c ← convertValue (g (attCol + 2) row)
  let d ← convertValue (g (attCol + 3) row)
  pure ⟨a, b, c, d⟩

/-- `PupilSemesterReportParser.get_pupil_subjects` (lines 162-176): columns 3
up to the average column, names read from row 4 (asserted to be strings),
marks stored raw. -/
def getSubjectsSem (g : Grid) (avg row : ℕ) : PRes (List USubject) :=
  (List.range' 3 (avg - 3)).mapM fun col => do
    let nm ← assertStrCell (g col 4)
    pure (⟨nm, ⟨g col row⟩⟩ : USubject)

/-- One semester-layout pupil row (`get_pupil_data`, lines 150-160): raw name
cell, subjects, average, attendance (whose column is located by the second
string-marker scan). -/
def getPupilSem (g : Grid) (fuel avg row : ℕ) : PRes UnifiedPupil := do
  let subs ← getSubjectsSem g avg row
  match findAttColSem g fuel avg with
  | none => .diverge
  | some attCol => do
    let att ← getAttendance g attCol row
    pure ⟨g 2 row, subs, some (getPupilAverage g avg row), att⟩

/-- `PupilSemesterReportParser.get_pupil_data`: rows 14 through the last pupil
row. -/
def getPupilDataSem (g : Grid) (fuel avg last : ℕ) : PRes (List UnifiedPupil) :=
  (List.range' 14 (last + 1 - 14)).mapM (getPupilSem g fuel avg)

/-- The exact report-type string `PupilSemesterReportParser.create_summary`
compares against. -/
def semHdrTarget : String := "Ataskaita: Mokinių pasiekimų ir lankomumo suvestinė"

/-- The exact report-type string `PupilPeriodicReportParser.create_summary`
compares against (after dropping the final character of the header cell). -/
def perHdrTarget : String := "Ataskaita: Mokinių vidurkių suvestinė"

/-- Semester parser metadata computed in `__init__` (lines 106-118): start
year, end year and subtype string, out of the `cell(9, 2)` term header. -/
def semInit (g : Grid) : PRes (ℕ × ℕ × String) := do
  let v ← asStrCell (g 9 2)
  match (pySplitOnStr v ": ").get? 1 with
  | none => .fail .indexError
  | some raw0 =>
    let tv := pySplitChar (pyStrip raw0) '-'
    let y1 ← pyIntOfStr (tv.headD "")
    match tv.get? 1 with
    | none => .fail .indexError
    | some second => do
      let y2 ← pyIntOfStr (pyTake second 4)
      pure (y1, y2, pyDrop second 8)

/-- The summary construction of `PupilSemesterReportParser.create_summary`:
grade name from `cell(9, 1)`, then the pupil-row walk. -/
def semBuildStep (g : Grid) (fuel avg last : ℕ) (meta : ℕ × ℕ × String) : PRes ClassSummary := do
  let gn ← asStrCell (g 9 1)
  let students ← getPupilDataSem g fuel avg last
  pure (mkClassSummary (pyDrop gn 7) (some meta.2.2) ⟨meta.1, 1, 1⟩ ⟨meta.2.1, 1, 1⟩ students)

/-- The body of `PupilSemesterReportParser.create_summary` after the
report-type check (lines 188-197): locate the average column and last pupil
row, reject a zero footer, then build the summary. -/
def semAfterHeader (g : Grid) (fuel : ℕ) (meta : ℕ × ℕ × String) : PRes ClassSummary :=
  match findAvgColSem g fuel, findLastPupilRow g fuel with
  | some avg, some last =>
    if pyEqZeroCell (g avg (last + 1)) then .fail .inconclusiveResource
    else semBuildStep g fuel avg last meta
  | _, _ => .diverge

/-- `PupilSemesterReportParser.create_summary` (lines 178-197): the header
cell `(1, 2)` must equal the report-type string exactly, otherwise
`InvalidResourceTypeError`. -/
def createSummarySem (g : Grid) (fuel : ℕ) (meta : ℕ × ℕ × String) : PRes ClassSummary :=
  if g 1 2 = some (.str semHdrTarget) then semAfterHeader g fuel meta
  else .fail .invalidResourceType

/-- Construction plus `create_summary` of the semester parser, as the
aggregator runs them. -/
def parseSemesterFile (g : Grid) (fuel : ℕ) : PRes ClassSummary := do
  let meta ← semInit g
  createSummarySem g fuel meta

/-- `PupilPeriodicReportParser.get_pupil_subjects` (lines 242-256): columns 4
up to the average column, names read from row 3. -/
def getSubjectsPer (g : Grid) (avg row : ℕ) : PRes (List USubject) :=
  (List.range' 4 (avg - 4)).mapM fun col => do
    let nm ← assertStrCell (g col 3)
    pure (⟨nm, ⟨g col row⟩⟩ : USubject)

/-- One periodic-layout pupil row; the attendance column is the fixed offset
`findAttColPer avg`. -/
def getPupilPer (g : Grid) (avg row : ℕ) : PRes UnifiedPupil := do
  let subs ← getSubjectsPer g avg row
  let att ← getAttendance g (findAttColPer avg) row
  pure ⟨g 2 row, subs, some (getPupilAverage g avg row), att⟩

/-- `PupilPeriodicReportParser.get_pupil_data`: rows 12 through the last
pupil row. -/
def getPupilDataPer (g : Grid) (avg last : ℕ) : PRes (List UnifiedPupil) :=
  (List.range' 12 (last + 1 - 12)).mapM (getPupilPer g avg)

/-- Periodic parser metadata computed in `__init__` (lines 201-209): term
start and end dates out of the `cell(7, 1)` range header. -/
def perInit (g : Grid) : PRes (PyDate × PyDate) := do
  let v ← asStrCell (g 7 1)
  let parts := pySplitOnStr v " - "
  let d1 ← parseDate (parts.headD "")
  match parts.get? 1 with
  | none => .fail .indexError
  | some p2 => do
    let d2 ← parseDate p2
    pure (d1, d2)

/-- The body of `PupilPeriodicReportParser.create_summary` after the
report-type check (lines 268-276). -/
def perAfterHeader (g : Grid) (fuel : ℕ) (meta : PyDate × PyDate) : PRes ClassSummary :=
  match findAvgColPer g fuel, findLastPupilRow g fuel with
  | some avg, some last =>
    if pyEqZeroCell (g avg (last + 1)) then .fail .inconclusiveResource
    else do
      let gn ← asStrCell (g 5 1)
      let students ← getPupilDataPer g avg last
      pure (mkClassSummary (pyDropRight (pyDrop gn 7) 2) none meta.1 meta.2 students)
  | _, _ => .diverge

/-- `PupilPeriodicReportParser.create_summary` (lines 258-276): the header
cell `(1, 1)` is sliced by `[:-1]` before being compared with the report-type
string; a non-string header cell raises. -/
def createSummaryPer (g : Grid) (fuel : ℕ) (meta : PyDate × PyDate) : PRes ClassSummary :=
  match g 1 1 with
  | some (.str hdr) =>
    if pyDropRight hdr 1 = perHdrTarget then perAfterHeader g fuel meta
    else .fail .invalidResourceType
  | _ => .fail .typeError

/-- Construction plus `create_summary` of the periodic parser. -/
def parsePeriodicFile (g : Grid) (fuel : ℕ) : PRes ClassSummary := do
  let meta ← perInit g
  createSummaryPer g fuel meta

/-- `strftime("%m-%d")`-style zero-padded two-digit rendering. -/
def pad2 (k : ℕ) : String := if k < 10 then "0" ++ toString k else toString k

/-- `BaseReportSummary.representable_name` (`analyser/summaries.py`,
lines 35-38): month-day bounds of the period, used by the periodic and group
aggregators for deduplication. -/
def perRepresentableName (s : ClassSummary) : String :=
  pad2 s.term_start.m ++ "-" ++ pad2 s.term_start.d ++ " - "
    ++ pad2 s.term_end.m ++ "-" ++ pad2 s.term_end.d

/-- `ClassReportSummary.grade_name_as_int`: leading word as an integer, else a
roman-numeral gymnasium binding, else `-1`. -/
def gradeNameAsInt (s : ClassSummary) : ℤ :=
  let w := (pySplitChar s.grade_name ' ').headD ""
  if pyIsDigits w then (natOfDigits w.data : ℤ)
  else if w = "I" then 9
  else if w = "II" then 10
  else if w = "III" then 11
  else if w = "IV" then 12
  else -1

/-- `ClassSemesterReportSummary.period_name`. -/
def periodName (t : String) : String :=
  if pyEndsWith t "pusmetis" then t else t ++ " trimestras"

/-- `ClassSemesterReportSummary.representable_name` (the override used by the
semester aggregator). -/
def semRepresentableName (s : ClassSummary) : String :=
  toString (gradeNameAsInt s) ++ " kl.\n" ++ periodName (s.stype.getD "") ++ "\n("
    ++ toString s.term_start.y ++ "-" ++ toString s.term_end.y ++ ")"

/-- The per-file outcome the aggregation loop reacts to: a parsed summary, or
the exception the construction/parse/close raised (any exception — the two
`except` arms of the loop together catch everything). -/
inductive FileOutcome where
  | ok (s : ClassSummary)
  | err (e : ParseErr)
deriving DecidableEq

/-- The reasons the aggregation loops log before `continue`-ing past a
file. -/
inductive Reject where
  | parseError (e : ParseErr)
  | annual
  | duplicate
  | absentAverage
deriving DecidableEq

/-- Post-parse filters of `parse_semester_summary_files` (lines 411-417):
annual subtype first, then deduplication by representable name. -/
def filtSem (acc : List ClassSummary) (s : ClassSummary) : Option Reject :=
  if s.stype = some "metinis" then some .annual
  else if acc.any (fun t => semRepresentableName t == semRepresentableName s) then some .duplicate
  else none

/-- Post-parse filters of `parse_periodic_summary_files` (lines 445-451):
deduplication by representable name, then the `s.average is None` check. -/
def filtPer (acc : List ClassSummary) (s : ClassSummary) : Option Reject :=
  if acc.any (fun t => perRepresentableName t == perRepresentableName s) then some .duplicate
  else if s.students.any (fun p => p.average.isNone) then some .absentAverage
  else none

/-- Post-parse filters of `parse_group_summary_files` (lines 479-485): same
shape as the periodic ones. -/
def filtGroup (acc : List ClassSummary) (s : ClassSummary) : Option Reject :=
  if acc.any (fun t => perRepresentableName t == perRepresentableName s) then some .duplicate
  else if s.students.any (fun p => p.average.isNone) then some .absentAverage
  else none

/-- One iteration of an aggregation loop over one file: an exception is
caught, logged and skipped; a surviving summary either trips a post-parse
filter (logged, skipped) or is appended. -/
def stepG (filt : List ClassSummary → ClassSummary → Option Reject)
    (acc : List ClassSummary × List (String × Reject)) (f : String × FileOutcome) :
    List ClassSummary × List (String × Reject) :=
  match f.2 with
  | .err e => (acc.1, acc.2 ++ [(f.1, .parseError e)])
  | .ok s =>
    match filt acc.1 s with
    | some r => (acc.1, acc.2 ++ [(f.1, r)])
    | none => (acc.1 ++ [s], acc.2)

/-- `parse_semester_summary_files` (lines 393-425), over the per-file
outcomes: accepted summaries in input order plus the logged rejections. -/
def parseSemesterSummaryFiles (files : List (String × FileOutcome)) :
    List ClassSummary × List (String × Reject) :=
  files.foldl (stepG filtSem) ([], [])

/-- `parse_periodic_summary_files` (lines 427-459). -/
def parsePeriodicSummaryFiles (files : List (String × FileOutcome)) :
    List ClassSummary × List (String × Reject) :=
  files.foldl (stepG filtPer) ([], [])

/-- `parse_group_summary_files` (lines 461-493). -/
def parseGroupSummaryFiles (files : List (String × FileOutcome)) :
    List ClassSummary × List (String × Reject) :=
  files.foldl (stepG filtGroup) ([], [])

/-- Accepted-summaries component of one aggregation step; the log plays no
role in the decisions. -/
def stepA (filt : List ClassSummary → ClassSummary → Option Reject)
    (a : List ClassSummary) (f : String × FileOutcome) : List ClassSummary :=
  match f.2 with
  | .err _ => a
  | .ok s =>
    match filt a s with
    | some _ => a
    | none => a ++ [s]

/-- Log entries contributed by one aggregation step. -/
def logOf (filt : List ClassSummary → ClassSummary → Option Reject)
    (a : List ClassSummary) (f : String × FileOutcome) : List (String × Reject) :=
  match f.2 with
  | .err e => [(f.1, .parseError e)]
  | .ok s =>
    match filt a s with
    | some r => [(f.1, r)]
    | none => []

/-- Log entries contributed by a whole run from a given accepted-list
state. -/
def logAll (filt : List ClassSummary → ClassSummary → Option Reject) :
    List ClassSummary → List (String × FileOutcome) → List (String × Reject)
  | _, [] => []
  | a, f :: fs => logOf filt a f ++ logAll filt (stepA filt a f) fs

/-- A concrete semester-layout fixture grid, parameterized by the one subject
mark cell `(3, 14)`, the report-type header cell `(1, 2)` and the footer cell
`(4, 15)`; every cell the parser reads for another purpose holds a fixed
well-formed value, and all other cells are empty. -/
def GSem (tok hdr ft : Option PyVal) : Grid := fun col row =>
  match col, row with
  | 1, 2 => hdr
  | 9, 2 => some (.str "Laikotarpis: 2020-2021m.m.II pusmetis")
  | 9, 1 => some (.str "Klasė: 5")
  | 5, 3 => some (.str "Pasiekimų lygiai")
  | 6, 3 => some (.str "Pamokų lankomumas")
  | 1, 14 => some (.num ⟨1, 1⟩)
  | 1, 15 => some (.str "Dalyko vidurkis")
  | 3, 4 => some (.str "Matematika")
  | 2, 14 => some (.str "Jonaitis Jonas")
  | 3, 14 => tok
  | 4, 14 => some (.num ⟨8, 1⟩)
  | 6, 14 => some (.num ⟨2, 1⟩)
  | 7, 14 => some (.num ⟨1, 1⟩)
  | 8, 14 => some (.num ⟨1, 1⟩)
  | 9, 14 => some (.num ⟨0, 1⟩)
  | 4, 15 => ft
  | _, _ => none

/-- The well-formed header cell for `GSem`. -/
def semHdrGood : Option PyVal := some (.str semHdrTarget)

/-- A non-zero footer cell for `GSem`. -/
def semFtGood : Option PyVal := some (.num ⟨8, 1⟩)

/-- An ordinary numeric mark for the subject cell of `GSem`. -/
def semTokGood : Option PyVal := some (.num ⟨9, 1⟩)

/-- The summary the semester parser produces from `GSem tok semHdrGood
semFtGood`: one pupil whose single subject mark holds the raw cell `tok`
unchanged. -/
def SSem (tok : Option PyVal) : ClassSummary :=
  ⟨"5 klasė", some "II pusmetis", ⟨2020, 1, 1⟩, ⟨2021, 1, 1⟩,
    [⟨some (.str "Jonaitis Jonas"), [⟨"Matematika", ⟨tok⟩⟩],
      some ⟨some (.num ⟨8, 1⟩)⟩, ⟨2, 1, 1, 0⟩⟩]⟩

/-- A concrete periodic-layout fixture grid, parameterized by the header cell
string `(1, 1)` and the second pupil's average cell `(5, 13)`. -/
def GPer (hdr : String) (avg2 : Option PyVal) : Grid := fun col row =>
  match col, row with
  | 1, 1 => some (.str hdr)
  | 7, 1 => some (.str "2023-01-01 - 2023-05-31")
  | 5, 1 => some (.str "Klasė: 7a, ")
  | 5, 2 => some (.str "Vidurkis")
  | 4, 3 => some (.str "Istorija")
  | 1, 14 => some (.str "Dalyko vidurkis")
  | 2, 12 => some (.str "Petraitis Petras")
  | 2, 13 => some (.str "Kazlauskas Kazys")
  | 4, 12 => some (.num ⟨9, 1⟩)
  | 4, 13 => some (.num ⟨7, 1⟩)
  | 5, 12 => some (.num ⟨9, 1⟩)
  | 5, 13 => avg2
  | 5, 14 => some (.num ⟨8, 1⟩)
  | _, _ => none

/-- A header-cell string `GPer` accepts: the report-type string plus the one
trailing character the platform emits, which `create_summary` slices off. -/
def perHdrGood : String := perHdrTarget ++ " "

/-- The summary the periodic parser produces from `GPer perHdrGood avg2`:
two pupils, the second one's average mark determined by the `(5, 13)` cell. -/
def SPer (m2 : Mark) : ClassSummary :=
  ⟨"7a", none, ⟨2023, 1, 1⟩, ⟨2023, 5, 31⟩,
    [⟨some (.str "Petraitis Petras"), [⟨"Istorija", ⟨some (.num ⟨9, 1⟩)⟩⟩],
       some ⟨some (.num ⟨9, 1⟩)⟩, ⟨0, 0, 0, 0⟩⟩,
     ⟨some (.str "Kazlauskas Kazys"), [⟨"Istorija", ⟨some (.num ⟨7, 1⟩)⟩⟩],
       some m2, ⟨0, 0, 0, 0⟩⟩]⟩

/-- The empty grid: every read gives `Empty`, as an openpyxl sheet behaves
outside its populated region. -/
def emptyGrid : Grid := fun _ _ => none

/-- A concrete summary used to exercise the deduplication filter. -/
def SW1 : ClassSummary :=
  ⟨"5 klasė", none, ⟨2023, 9, 1⟩, ⟨2023, 12, 31⟩,
    [⟨some (.str "Jonaitis Jonas"), [], some ⟨some (.num ⟨8, 1⟩)⟩, ⟨0, 0, 0, 0⟩⟩]⟩

/-- A second concrete summary covering the same period as `SW1` but with
different content. -/
def SW2 : ClassSummary :=
  ⟨"6 klasė", none, ⟨2023, 9, 1⟩, ⟨2023, 12, 31⟩, []⟩

/-- Distinctness of representable period labels, the relation the periodic
aggregator's deduplication maintains. -/
def DistinctRep (a b : ClassSummary) : Prop :=
  perRepresentableName a ≠ perRepresentableName b


theorem findFrom_none (p : ℕ → Bool) (h : ∀ j, p j = false) :
    ∀ fuel s, findFrom p fuel s = none := by
  intro fuel
  induction fuel with
  | zero => intro s; rfl
  | succ f ih => intro s; simp [findFrom, h s, ih]

theorem findFrom_some (p : ℕ → Bool) :
    ∀ fuel s k, findFrom p fuel s = some k → p k = true ∧ s ≤ k := by
  intro fuel
  induction fuel with
  | zero => intro s k h; simp [findFrom] at h
  | succ f ih =>
    intro s k h
    unfold findFrom at h
    by_cases hp : p s
    · simp [hp] at h
      exact ⟨h ▸ hp, h ▸ le_rfl⟩
    · simp [hp] at h
      obtain ⟨hk, hs⟩ := ih (s + 1) k h
      exact ⟨hk, by omega⟩

theorem findFrom_found (p : ℕ → Bool) :
    ∀ d s, p (s + d) = true → findFrom p (d + 1) s ≠ none := by
  intro d
  induction d with
  | zero => intro s h; simp [findFrom, show p s = true from h]
  | succ d ih =>
    intro s h
    unfold findFrom
    by_cases hp : p s
    · simp [hp]
    · simp only [hp, if_false, Bool.false_eq_true, ite_false]
      have : p (s + 1 + d) = true := by rwa [show s + 1 + d = s + (d + 1) by omega]
      exact ih (s + 1) this

theorem findFrom_mono (p : ℕ → Bool) :
    ∀ fuel s k, findFrom p fuel s = some k →
      ∀ fuel2, fuel ≤ fuel2 → findFrom p fuel2 s = some k := by
  intro fuel
  induction fuel with
  | zero => intro s k h; simp [findFrom] at h
  | succ f ih =>
    intro s k h fuel2 hle
    obtain ⟨f2, rfl⟩ : ∃ f2, fuel2 = f2 + 1 := ⟨fuel2 - 1, by omega⟩
    unfold findFrom at h ⊢
    by_cases hp : p s
    · simpa [hp] using h
    · simp [hp] at h ⊢
      exact ih _ _ h _ (by omega)

theorem findFrom_found_ge (p : ℕ → Bool) (r s fuel : ℕ)
    (hp : p r = true) (hsr : s ≤ r) (hfuel : r - s < fuel) :
    findFrom p fuel s ≠ none := by
  have h1 : findFrom p (r - s + 1) s ≠ none := by
    apply findFrom_found
    rwa [Nat.add_sub_cancel' hsr]
  obtain ⟨k, hk⟩ := Option.ne_none_iff_exists.mp h1
  have := findFrom_mono p _ _ _ hk.symm fuel (by omega)
  simp [this]

theorem stepG_decomp (filt : List ClassSummary → ClassSummary → Option Reject)
    (acc : List ClassSummary × List (String × Reject)) (f : String × FileOutcome) :
    stepG filt acc f = (stepA filt acc.1 f, acc.2 ++ logOf filt acc.1 f) := by
  rcases f with ⟨nm, fo⟩
  cases fo with
  | ok s =>
    cases hf : filt acc.1 s <;> simp [stepG, stepA, logOf, hf]
  | err e => simp [stepG, stepA, logOf]

theorem foldl_stepG (filt : List ClassSummary → ClassSummary → Option Reject) :
    ∀ (fs : List (String × FileOutcome)) (a : List ClassSummary)
      (r : List (String × Reject)),
      List.foldl (stepG filt) (a, r) fs
        = (List.foldl (stepA filt) a fs, r ++ logAll filt a fs) := by
  intro fs
  induction fs with
  | nil => intro a r; simp [logAll]
  | cons f fs ih =>
    intro a r
    rw [List.foldl_cons, stepG_decomp, ih, List.foldl_cons]
    simp [logAll]

theorem aggregator_skips_error (filt : List ClassSummary → ClassSummary → Option Reject)
    (pre post : List (String × FileOutcome)) (name : String) (e : ParseErr) :
    List.foldl (stepG filt) ([], []) (pre ++ (name, FileOutcome.err e) :: post)
      = ((List.foldl (stepG filt) ([], []) (pre ++ post)).1,
         (List.foldl (stepG filt) ([], []) pre).2
           ++ (name, Reject.parseError e)
           :: ((List.foldl (stepG filt) ([], []) (pre ++ post)).2.drop
                (List.foldl (stepG filt) ([], []) pre).2.length)) := by
  have hpre : List.foldl (stepG filt) ([], []) pre
      = (List.foldl (stepA filt) [] pre, logAll filt [] pre) := by
    rw [foldl_stepG]; simp
  have hbad : stepG filt (List.foldl (stepA filt) [] pre, logAll filt [] pre)
      (name, FileOutcome.err e)
      = (List.foldl (stepA filt) [] pre,
         logAll filt [] pre ++ [(name, Reject.parseError e)]) := by
    simp [stepG]
  rw [List.foldl_append, List.foldl_cons, hpre, hbad, foldl_stepG,
    List.foldl_append, hpre, foldl_stepG]
  simp

theorem stepA_per_pairwise (a : List ClassSummary) (f : String × FileOutcome)
    (h : a.Pairwise DistinctRep) : (stepA filtPer a f).Pairwise DistinctRep := by
  rcases f with ⟨nm, fo⟩
  cases fo with
  | err e => exact h
  | ok s =>
    cases hf : filtPer a s with
    | some r =>
      show (match filtPer a s with
            | some _ => a
            | none => a ++ [s]).Pairwise DistinctRep
      rw [hf]
      exact h
    | none =>
      show (match filtPer a s with
            | some _ => a
            | none => a ++ [s]).Pairwise DistinctRep
      rw [hf]
      unfold filtPer at hf
      by_cases h1 : a.any (fun t => perRepresentableName t == perRepresentableName s)
      · simp [h1] at hf
      · have hfalse : a.any (fun t => perRepresentableName t == perRepresentableName s) = false :=
          Bool.not_eq_true _ ▸ h1
        have hall := List.any_eq_false.mp hfalse
        refine List.pairwise_append.mpr ⟨h, List.pairwise_singleton _ _, ?_⟩
        intro x hx y hy
        have hy2 : y = s := by simpa using hy
        subst hy2
        have := hall x hx
        exact fun hcontra => this (by simp [DistinctRep] at hcontra ⊢; exact hcontra)

theorem foldl_stepA_per_pairwise :
    ∀ (fs : List (String × FileOutcome)) (a : List ClassSummary),
      a.Pairwise DistinctRep →
      (List.foldl (stepA filtPer) a fs).Pairwise DistinctRep := by
  intro fs
  induction fs with
  | nil => intro a h; exact h
  | cons f fs ih =>
    intro a h
    rw [List.foldl_cons]
    exact ih _ (stepA_per_pairwise a f h)

/-- C1 counterexample: the claim asserts that `Mark.clean` maps a raw numeric
zero to Absent, citing both implementations; the top-level `models.py`
implementation returns `Numeric(0)` for a raw `0`. -/
theorem c1_counterexample :
    legacyClean (some (.num ⟨0, 1⟩)) = .ok (some (.num ⟨0, 1⟩))
    ∧ (Except.ok (some (Cleaned.num ⟨0, 1⟩)) : Except String (Option Cleaned))
        ≠ .ok none := by
  decide

/-- C1 (amended): for every numeric raw cell value, the analyser's
`Mark.clean` returns Absent exactly when the value equals `0` (or `0.0`) and
the value itself otherwise, so it never produces a numeric mark `0`; the
legacy top-level `models.py` `Mark.clean` instead returns every numeric value
unchanged, a raw `0` included. -/
theorem c1_amended_thm (q : PyNum) :
    clean (some (.num q)) = .ok (if q.eqv pyZero then none else some (.num q))
    ∧ legacyClean (some (.num q)) = .ok (some (.num q)) := by
  constructor
  · by_cases hq : q.eqv pyZero <;> simp [clean, hq]
  · rfl

/-- C2 counterexample: the claim asserts `normalize("įskIN") == Binary(true)`
for `Mark.clean`, citing both implementations; the top-level `models.py`
implementation raises `ValueError` on the decorated token (and on the
absence token `"n"`). -/
theorem c2_counterexample :
    legacyClean (some (.str "įskIN")) = .error "įskIN"
    ∧ legacyClean (some (.str "n")) = .error "n" := by
  decide

/-- C2 (amended): the analyser's `Mark.clean` maps the absence tokens `"n"`,
`"nk"`, `"nl"`, the exempt token `"atl"`, a hyphen and every hour-suffixed
string to Absent, maps `"įsk"` to `Binary(true)` and `"nsk"` to
`Binary(false)` also under the `"IN"`/`"PR"` decorations in either order, and
the decoration stripping is idempotent on these tokens; the legacy top-level
`models.py` `Mark.clean` handles only the plain hyphen/įsk/nsk/atl tokens and
numeric strings and raises on the rest. -/
theorem c2_amended_thm :
    (∀ s : String, (pyEndsWith s "val." || pyEndsWith s "val") = true →
        clean (some (.str s)) = .ok none)
    ∧ clean (some (.str "n")) = .ok none
    ∧ clean (some (.str "nk")) = .ok none
    ∧ clean (some (.str "nl")) = .ok none
    ∧ clean (some (.str "atl")) = .ok none
    ∧ clean (some (.str "-")) = .ok none
    ∧ clean (some (.str "įsk")) = .ok (some (.bool true))
    ∧ clean (some (.str "nsk")) = .ok (some (.bool false))
    ∧ clean (some (.str "įskIN")) = .ok (some (.bool true))
    ∧ clean (some (.str "įskPR")) = .ok (some (.bool true))
    ∧ clean (some (.str "nskIN")) = .ok (some (.bool false))
    ∧ clean (some (.str "nskPR")) = .ok (some (.bool false))
    ∧ clean (some (.str "įskINPR")) = .ok (some (.bool true))
    ∧ clean (some (.str "įskPRIN")) = .ok (some (.bool true))
    ∧ clean (some (.str "nskINPR")) = .ok (some (.bool false))
    ∧ clean (some (.str "nskPRIN")) = .ok (some (.bool false))
    ∧ stripProgram (stripProgram "įskIN") = stripProgram "įskIN"
    ∧ stripProgram (stripProgram "nskPRIN") = stripProgram "nskPRIN" := by
  constructor
  · intro s h
    have hc : clean (some (.str s)) = cleanStr s := rfl
    rw [hc]
    unfold cleanStr
    by_cases e1 : s = "-"
    · subst e1; exact absurd h (by decide)
    rw [if_neg e1]
    by_cases e2 : s = "įsk"
    · subst e2; exact absurd h (by decide)
    rw [if_neg e2]
    by_cases e3 : s = "nsk"
    · subst e3; exact absurd h (by decide)
    rw [if_neg e3]
    by_cases e4 : s = "atl"
    · subst e4; exact absurd h (by decide)
    rw [if_neg e4]
    by_cases e5 : s = "n"
    · subst e5; exact absurd h (by decide)
    rw [if_neg e5]
    by_cases e6 : s = "nk"
    · subst e6; exact absurd h (by decide)
    rw [if_neg e6]
    by_cases e7 : s = "nl"
    · subst e7; exact absurd h (by decide)
    rw [if_neg e7, if_pos h]
  · decide

/-- C2 witness: the hour-suffixed string `"4 val."` satisfies the hypothesis
and is normalized to Absent. -/
theorem c2_amended_thm_witness :
    (pyEndsWith "4 val." "val." || pyEndsWith "4 val." "val") = true
    ∧ clean (some (.str "4 val.")) = .ok none :=
  ⟨by decide, c2_amended_thm.1 "4 val." (by decide)⟩

/-- C8 counterexample: the claim asserts that the built-in non-graded names
make `is_ignored` true even with an empty ignore-list, in particular for
`"Dorinis ugdymas (etika)"`; the analyser's `is_ignored` consults only the
module marker and the configured list, so the name is not ignored. -/
theorem c8_counterexample : isIgnored [] "Dorinis ugdymas (etika)" = false := by
  decide

/-- C8 (amended): the analyser's `is_ignored` is true exactly when the name
contains the module marker or matches a configured entry under its bitmask
kind (1 exact, 3 prefix, 5 suffix, otherwise substring); `"Etika*"` parses to
the prefix entry `(3, "Etika")` which ignores `"Etika (pradinė)"`.  The fixed
built-in list of non-graded names exists only in the legacy top-level
`models.py` classifier (which consults no ignore-list), so
`"Dorinis ugdymas (etika)"` is ignored by the legacy classifier but not by
the analyser's with an empty list. -/
theorem c8_amended_thm :
    (∀ (name w : String),
        matchesFilter name (1, w) = (name == w)
        ∧ matchesFilter name (3, w) = pyStartsWith name w
        ∧ matchesFilter name (5, w) = pyEndsWith name w
        ∧ matchesFilter name (7, w) = pyContains name w)
    ∧ (∀ (filters : List ItemFilter) (name : String),
        isIgnored filters name
          = (isModuleName name || filters.any (matchesFilter name)))
    ∧ getIgnoredItemFilters ["Etika*"] = [(3, "Etika")]
    ∧ parseFilterLine "Etika" = (1, "Etika")
    ∧ parseFilterLine "*Etika" = (5, "Etika")
    ∧ parseFilterLine "*Etika*" = (7, "Etika")
    ∧ isIgnored [(3, "Etika")] "Etika (pradinė)" = true
    ∧ isIgnored [] "Matematikos modulis" = true
    ∧ legacyIsIgnored "Dorinis ugdymas (etika)" = true
    ∧ isIgnored [] "Dorinis ugdymas (etika)" = false := by
  refine ⟨?_, ?_, by decide⟩
  · intro name w
    exact ⟨rfl, rfl, rfl, rfl⟩
  · intro filters name
    rfl

/-- C10: the legacy binary (xlrd) adapter path collapses every falsy stored
value — numeric `0` and the empty string alike — to Empty, so the value it
returns is never a numeric zero and the footer-cell `== 0` comparison can
never observe a `0` read through it, while the Open-Packaging (openpyxl) path
returns the stored value unchanged. -/
theorem c10_thm :
    (∀ (stored : ℕ → ℕ → PyVal) (column row : ℕ),
        pyTruthy (stored (row - 1) (column - 1)) = false →
        getCellXlrd stored column row = none)
    ∧ (∀ (stored : ℕ → ℕ → PyVal) (column row : ℕ),
        pyEqZeroCell (getCellXlrd stored column row) = false)
    ∧ (∀ (stored : ℕ → ℕ → Option PyVal) (column row : ℕ),
        getCellOpenpyxl stored column row = stored row column) := by
  refine ⟨?_, ?_, fun stored column row => rfl⟩
  · intro st c r h
    unfold getCellXlrd
    simp [h]
  · intro st c r
    unfold getCellXlrd
    by_cases ht : pyTruthy (st (r - 1) (c - 1))
    · simp only [ht, if_true]
      cases hv : st (r - 1) (c - 1) with
      | num q =>
        rw [hv] at ht
        unfold pyTruthy at ht
        simp only [pyEqZeroCell]
        simpa using ht
      | str s => simp [pyEqZeroCell]
    · simp [ht, pyEqZeroCell]

/-- C10 witness: a stored numeric zero and a stored empty string both come
back as Empty through the xlrd path. -/
theorem c10_thm_witness :
    pyTruthy (PyVal.num ⟨0, 1⟩) = false
    ∧ getCellXlrd (fun _ _ => PyVal.num ⟨0, 1⟩) 3 5 = none
    ∧ getCellXlrd (fun _ _ => PyVal.str "") 3 5 = none :=
  ⟨by decide, c10_thm.1 _ 3 5 (by decide), c10_thm.1 _ 3 5 (by decide)⟩

/-- C3 counterexample: the claim asserts that a file holding an unconvertible
pupil-row cell never yields a Summary; on the fixture grid whose subject mark
cell holds the unconvertible string `"beraštis"` (its normalization fails),
`create_summary` still returns the full Summary. -/
theorem c3_counterexample :
    clean (some (.str "beraštis")) = .error "beraštis"
    ∧ GSem (some (.str "beraštis")) semHdrGood semFtGood 3 14
        = some (.str "beraštis")
    ∧ parseSemesterFile (GSem (some (.str "beraštis")) semHdrGood semFtGood) 100
        = .done (SSem (some (.str "beraštis"))) := by
  decide

/-- C3 (amended): normalization of an unrecognized token does fail with the
`ValueError` carrying the raw value, but the parser never normalizes while
parsing: `create_summary` stores each pupil-row cell raw, so it returns a
full Summary whatever value the mark cell holds, and the failure can only
surface later when the stored mark's `clean` is accessed. -/
theorem c3_amended_thm (tok : Option PyVal) :
    parseSemesterFile (GSem tok semHdrGood semFtGood) 100 = .done (SSem tok)
    ∧ (SSem tok).students.head?.map (fun p => p.subjects.map (fun sub => sub.mark))
        = some [⟨tok⟩] := by
  exact ⟨rfl, rfl⟩

/-- C4 counterexample: the claim asserts the header check passes (and, the
footer being non-zero, a Summary is built) when the header cell equals the
platform report-type string exactly; the periodic parser compares the header
cell with its last character dropped, so the exactly-equal header is rejected
with `InvalidResourceTypeError`. -/
theorem c4_counterexample :
    GPer perHdrTarget (some (.num ⟨7, 1⟩)) 1 1 = some (.str perHdrTarget)
    ∧ parsePeriodicFile (GPer perHdrTarget (some (.num ⟨7, 1⟩))) 100
        = .fail .invalidResourceType := by
  decide

/-- C4 (amended): the semester `create_summary` accepts exactly a header cell
equal to the platform string, the periodic one exactly a header cell whose
final character is dropped before the comparison; with the header check
passed, a zero footer cell one row past the last pupil raises
`InconclusiveResourceError` and otherwise the Summary is built; the two
error values are distinct. -/
theorem c4_amended_thm :
    (∀ s : String,
        parsePeriodicFile (GPer s (some (.num ⟨7, 1⟩))) 100
          = if pyDropRight s 1 = perHdrTarget
            then .done (SPer ⟨some (.num ⟨7, 1⟩)⟩)
            else .fail .invalidResourceType)
    ∧ (∀ h : Option PyVal,
        parseSemesterFile (GSem semTokGood h semFtGood) 100
          = if h = some (.str semHdrTarget)
            then .done (SSem semTokGood)
            else .fail .invalidResourceType)
    ∧ (∀ ft : Option PyVal,
        parseSemesterFile (GSem semTokGood semHdrGood ft) 100
          = if pyEqZeroCell ft
            then .fail .inconclusiveResource
            else .done (SSem semTokGood))
    ∧ ParseErr.invalidResourceType ≠ ParseErr.inconclusiveResource := by
  refine ⟨?_, ?_, ?_, by decide⟩
  · intro s
    have h1 : parsePeriodicFile (GPer s (some (.num ⟨7, 1⟩))) 100
        = (if pyDropRight s 1 = perHdrTarget
           then perAfterHeader (GPer s (some (.num ⟨7, 1⟩))) 100
             (⟨2023, 1, 1⟩, ⟨2023, 5, 31⟩)
           else .fail .invalidResourceType) := rfl
    rw [h1]
    by_cases hc : pyDropRight s 1 = perHdrTarget
    · rw [if_pos hc, if_pos hc]
      rfl
    · rw [if_neg hc, if_neg hc]
  · intro h
    have h1 : parseSemesterFile (GSem semTokGood h semFtGood) 100
        = (if h = some (.str semHdrTarget)
           then semAfterHeader (GSem semTokGood h semFtGood) 100
             (2020, 2021, "II pusmetis")
           else .fail .invalidResourceType) := rfl
    rw [h1]
    by_cases hc : h = some (.str semHdrTarget)
    · rw [if_pos hc, if_pos hc]
      subst hc
      rfl
    · rw [if_neg hc, if_neg hc]
  · intro ft
    have h1 : parseSemesterFile (GSem semTokGood semHdrGood ft) 100
        = (if pyEqZeroCell ft
           then .fail .inconclusiveResource
           else semBuildStep (GSem semTokGood semHdrGood ft) 100 4 14
             (2020, 2021, "II pusmetis")) := rfl
    rw [h1]
    by_cases hft : pyEqZeroCell ft
    · rw [if_pos hft, if_pos hft]
    · rw [if_neg hft, if_neg hft]
      rfl

/-- C7 (code bug): on the periodic fixture whose second pupil's average cell
is a raw `0`, `get_pupil_average` stores `Mark(None)` — an aggregate that
normalizes to Absent — yet the batch aggregator accepts the file and logs no
rejection, because the filter compares the `Mark`-valued `average` attribute
itself against `None` (`s.average is None`), which is never true, instead of
its cleaned value. -/
theorem c7_dead_filter_thm :
    GPer perHdrGood (some (.num ⟨0, 1⟩)) 5 13 = some (.num ⟨0, 1⟩)
    ∧ parsePeriodicFile (GPer perHdrGood (some (.num ⟨0, 1⟩))) 100
        = .done (SPer ⟨none⟩)
    ∧ (SPer ⟨none⟩).students.get? 1
        = some ⟨some (.str "Kazlauskas Kazys"),
            [⟨"Istorija", ⟨some (.num ⟨7, 1⟩)⟩⟩], some ⟨none⟩, ⟨0, 0, 0, 0⟩⟩
    ∧ clean (Mark.mk none).raw = .ok none
    ∧ ((SPer ⟨none⟩).students.any fun p => p.average.isNone) = false
    ∧ parsePeriodicSummaryFiles [("ataskaita.xlsx", .ok (SPer ⟨none⟩))]
        = ([SPer ⟨none⟩], []) := by
  decide

/-- C5: each of the three batch aggregation functions treats a file whose
parse raises — any exception, the declared parse errors and everything else
alike — by logging one rejection carrying the file name and continuing: the
accepted summaries are those of the same batch without the bad file, the
rejection log gains exactly the one entry in order, and a (possibly empty)
pair of lists is always returned. -/
theorem c5_thm (pre post : List (String × FileOutcome)) (name : String) (e : ParseErr) :
    parseSemesterSummaryFiles (pre ++ (name, FileOutcome.err e) :: post)
      = ((parseSemesterSummaryFiles (pre ++ post)).1,
         (parseSemesterSummaryFiles pre).2
           ++ (name, Reject.parseError e)
           :: ((parseSemesterSummaryFiles (pre ++ post)).2.drop
                (parseSemesterSummaryFiles pre).2.length))
    ∧ parsePeriodicSummaryFiles (pre ++ (name, FileOutcome.err e) :: post)
      = ((parsePeriodicSummaryFiles (pre ++ post)).1,
         (parsePeriodicSummaryFiles pre).2
           ++ (name, Reject.parseError e)
           :: ((parsePeriodicSummaryFiles (pre ++ post)).2.drop
                (parsePeriodicSummaryFiles pre).2.length))
    ∧ parseGroupSummaryFiles (pre ++ (name, FileOutcome.err e) :: post)
      = ((parseGroupSummaryFiles (pre ++ post)).1,
         (parseGroupSummaryFiles pre).2
           ++ (name, Reject.parseError e)
           :: ((parseGroupSummaryFiles (pre ++ post)).2.drop
                (parseGroupSummaryFiles pre).2.length)) :=
  ⟨aggregator_skips_error filtSem pre post name e,
   aggregator_skips_error filtPer pre post name e,
   aggregator_skips_error filtGroup pre post name e⟩

/-- C6: the periodic aggregator's accepted summaries always carry pairwise
distinct representable period labels, and of two parsed files sharing a
representable label exactly the first in input order is accepted while one
duplicate rejection is logged for the other. -/
theorem c6_thm :
    (∀ files, ((parsePeriodicSummaryFiles files).1).Pairwise DistinctRep)
    ∧ (∀ (n1 n2 : String) (s1 s2 : ClassSummary),
        perRepresentableName s1 = perRepresentableName s2 →
        (s1.students.any fun p => p.average.isNone) = false →
        parsePeriodicSummaryFiles [(n1, .ok s1), (n2, .ok s2)]
          = ([s1], [(n2, Reject.duplicate)])) := by
  constructor
  · intro files
    have h := foldl_stepG filtPer files [] []
    unfold parsePeriodicSummaryFiles
    rw [h]
    exact foldl_stepA_per_pairwise files [] List.Pairwise.nil
  · intro n1 n2 s1 s2 h1 h2
    have e1 : stepG filtPer ([], []) (n1, FileOutcome.ok s1) = ([s1], []) := by
      have hf : filtPer [] s1 = none := by
        unfold filtPer
        simp [h2]
      simp [stepG, hf]
    have e2 : stepG filtPer ([s1], []) (n2, FileOutcome.ok s2)
        = ([s1], [(n2, Reject.duplicate)]) := by
      have hb : (perRepresentableName s1 == perRepresentableName s2) = true := by
        rw [h1]
        exact beq_self_eq_true _
      have hf : filtPer [s1] s2 = some .duplicate := by
        unfold filtPer
        simp [hb]
      simp [stepG, hf]
    unfold parsePeriodicSummaryFiles
    rw [List.foldl_cons, e1, List.foldl_cons, e2, List.foldl_nil]

/-- C6 witness: two concrete summaries covering the same period. -/
theorem c6_thm_witness :
    perRepresentableName SW1 = perRepresentableName SW2
    ∧ (SW1.students.any fun p => p.average.isNone) = false
    ∧ parsePeriodicSummaryFiles [("a.xlsx", .ok SW1), ("b.xlsx", .ok SW2)]
        = ([SW1], [("b.xlsx", Reject.duplicate)]) :=
  ⟨by decide, by decide, c6_thm.2 "a.xlsx" "b.xlsx" SW1 SW2 (by decide) (by decide)⟩

/-- C9 counterexample: the claim asserts every locator scan terminates on
every grid, failing with a structural-scan error when the marker is missing;
on the empty grid the semester average-column scan and the last-pupil-row
scan never find their marker for any iteration budget — the `while True`
loops they model run forever, and no error is raised. -/
theorem c9_counterexample :
    scanDiverges (semAvgProbe emptyGrid) 2
    ∧ scanDiverges (lastRowProbe emptyGrid) 13 := by
  constructor <;> intro fuel <;> exact findFrom_none _ (fun j => rfl) fuel _

/-- C9 (amended): each locator scan is an unbounded linear search that
terminates exactly when its structural marker occurs at or after its seed —
returning a position where the probe holds — and runs forever (returns
nothing for every fuel) when the marker never occurs; no
`StructuralScanFailure`-like error exists, the error taxonomy of `errors.py`
containing only the resource-type and inconclusive errors.  The periodic
attendance locator is a fixed offset and always terminates. -/
theorem c9_amended_thm (g : Grid) (fuel r : ℕ) :
    (findLastPupilRow g fuel = some r → lastRowProbe g r = true ∧ 13 ≤ r)
    ∧ (lastRowProbe g r = true → 13 ≤ r → findLastPupilRow g (r + 1) ≠ none)
    ∧ ((∀ j, lastRowProbe g j = false) → findLastPupilRow g fuel = none)
    ∧ (findAvgColSem g fuel = some r → 3 ≤ r ∧ semAvgProbe g (r - 1) = true)
    ∧ (semAvgProbe g r = true → 2 ≤ r → findAvgColSem g (r + 1) ≠ none)
    ∧ ((∀ j, semAvgProbe g j = false) → findAvgColSem g fuel = none)
    ∧ ((∀ j, attProbeSem g j = false) → findAttColSem g fuel r = none)
    ∧ findAttColPer r = r + 1 := by
  refine ⟨?_, ?_, ?_, ?_, ?_, ?_, ?_, rfl⟩
  · intro h
    exact findFrom_some _ _ _ _ h
  · intro hp h13
    exact findFrom_found_ge _ r 13 (r + 1) hp h13 (by omega)
  · intro hall
    exact findFrom_none _ hall fuel 13
  · intro h
    unfold findAvgColSem at h
    obtain ⟨k, hk, hr⟩ := Option.map_eq_some'.mp h
    obtain ⟨hp, hs⟩ := findFrom_some _ _ _ _ hk
    refine ⟨by omega, ?_⟩
    rw [show r - 1 = k by omega]
    exact hp
  · intro hp h2
    unfold findAvgColSem
    have hne : findFrom (semAvgProbe g) (r + 1) 2 ≠ none :=
      findFrom_found_ge _ r 2 (r + 1) hp h2 (by omega)
    exact fun hc => hne (Option.map_eq_none'.mp hc)
  · intro hall
    unfold findAvgColSem
    rw [findFrom_none _ hall fuel 2]
    rfl
  · intro hall
    unfold findAttColSem
    rw [findFrom_none _ hall fuel r]

/-- C9 witness: on the semester fixture the markers exist and the scans
succeed within their position-sized budget; on the empty grid the scan comes
back empty for the concrete budget. -/
theorem c9_amended_thm_witness :
    lastRowProbe (GSem semTokGood semHdrGood semFtGood) 14 = true
    ∧ findLastPupilRow (GSem semTokGood semHdrGood semFtGood) 15 ≠ none
    ∧ findLastPupilRow emptyGrid 100 = none
    ∧ semAvgProbe (GSem semTokGood semHdrGood semFtGood) 3 = true
    ∧ findAvgColSem (GSem semTokGood semHdrGood semFtGood) 4 ≠ none :=
  ⟨by decide,
   (c9_amended_thm (GSem semTokGood semHdrGood semFtGood) 100 14).2.1
     (by decide) (by decide),
   (c9_amended_thm emptyGrid 100 14).2.2.1 (fun j => rfl),
   by decide,
   (c9_amended_thm (GSem semTokGood semHdrGood semFtGood) 100 3).2.2.2.2.1
     (by decide) (by decide)⟩
